import Mathlib

/-!
# appRTOS.c : three uC/OS-III tasks sharing a mutex-protected console

Shallow embedding of `src/C/old/appRTOS.c`.

* Every C function is a state-passing Lean function over a `Machine`, the record of
  what the activation has done so far: the calls it issued (kernel calls and console
  writes, in program order), the statuses the kernel stored into its `err` variables and
  the number of GPIO reads it performed.
* What the outside world answers is an `Env`: the status of the k-th kernel call, the
  value of the button register at the k-th read, and whether `OSStart` comes back.
* `while (1)` loops are unrolled: `AppTask1 env n` is the task after `n` loop iterations.
* `MainTask` is a step function on control points, so that "returns" is a state.
* The kernel itself (`Source/os.h`) is not part of the sources; the scheduler and the
  mutex of the system model further down follow the specification.
-/

set_option linter.unusedVariables false
set_option autoImplicit false

namespace AppRTOS

/-! ## Defines (lines 73-78) -/

def APP_TASK_START_STK_SIZE : Nat := 512
def APP_TASK1_STK_SIZE : Nat := 512
def APP_TASK2_STK_SIZE : Nat := 512
def APP_TASK_START_PRIO : Nat := 8
def APP_TASK1_PRIO : Nat := 2
def APP_TASK2_PRIO : Nat := 3

/-! ## Objects named by the program (lines 87-95) -/

/-- Task control blocks declared by the program. -/
inductive OS_TCB
  | AppTaskStartTCB
  | AppTask1TCB
  | AppTask2TCB
  deriving DecidableEq, Repr

/-- Task stacks declared by the program. -/
inductive CPU_STK
  | AppTaskStartStk
  | AppTask1Stk
  | AppTask2Stk
  deriving DecidableEq, Repr

/-- Mutex objects declared by the program: there is one. -/
inductive OS_MUTEX
  | AppMutexPrint
  deriving DecidableEq, Repr

/-- Task entry points: `MainTask`, handed to `UCOSStartup`, and the three values of type
`OS_TASK_PTR` handed to `OSTaskCreate`. -/
inductive OS_TASK_PTR
  | MainTask
  | AppTaskStart
  | AppTask1
  | AppTask2
  deriving DecidableEq, Repr

/-- Option macros of `os.h` used by the program. The header is not part of the sources,
so the options are kept symbolic; `a | b` is the list of both. -/
inductive OS_OPT
  | OS_OPT_TASK_STK_CHK
  | OS_OPT_TASK_STK_CLR
  | OS_OPT_PEND_BLOCKING
  | OS_OPT_POST_NONE
  | OS_OPT_TIME_HMSM_STRICT
  deriving DecidableEq, Repr

/-- Modelled from the spec: the status type `OS_ERR` of `os.h`, which is not part of the
sources. Section 7 of the specification names the failures `ResourceExhausted`,
`NotOwner` and `Timeout`; `OS_ERR_NONE` is success and `other` any further code. -/
inductive OS_ERR
  | OS_ERR_NONE
  | ResourceExhausted
  | NotOwner
  | Timeout
  | other (code : Nat)
  deriving DecidableEq, Repr

/-- The thirteen arguments of `OSTaskCreate`, without the `p_err` out-parameter. -/
structure TaskCreateArgs where
  p_tcb : OS_TCB
  p_name : String
  p_task : OS_TASK_PTR
  p_arg : Nat
  prio : Nat
  p_stk_base : CPU_STK
  stk_limit : Nat
  stk_size : Nat
  q_size : Nat
  time_quanta : Nat
  p_ext : Nat
  opt : List OS_OPT
  deriving DecidableEq, Repr

/-- One call issued by the application: a kernel call with its arguments, or a write to
the console. -/
inductive Call
  | UCOS_Print (str : String)
  | OSInit
  | OSTaskCreate (args : TaskCreateArgs)
  | OSStart
  | OSMutexCreate (p_mutex : OS_MUTEX) (p_name : String)
  | OSMutexPend (p_mutex : OS_MUTEX) (timeout : Nat) (opt : OS_OPT)
  | OSMutexPost (p_mutex : OS_MUTEX) (opt : OS_OPT)
  | OSTimeDlyHMSM (hours minutes seconds milli : Nat) (opt : OS_OPT)
  deriving DecidableEq, Repr

/-! ## Environment and activation record -/

/-- What the world outside the application answers. -/
structure Env where
  /-- status stored through `p_err` by the k-th kernel call that comes back -/
  reply : Nat → OS_ERR
  /-- content of the GPIO button register at the k-th read -/
  button : Nat → Nat
  /-- whether `OSStart` comes back to its caller -/
  startReturns : Bool

/-- What an activation has done so far. -/
structure Machine where
  /-- calls issued, in program order -/
  trace : List Call
  /-- statuses stored into `err`, in program order -/
  errs : List OS_ERR
  /-- number of reads of the button register -/
  reads : Nat
  deriving DecidableEq, Repr

/-- The activation that has done nothing yet. -/
def Machine.start : Machine := { trace := [], errs := [], reads := 0 }

/-- A kernel call with a `p_err` out-parameter: the call is issued, the kernel stores its
status, and the status is handed to the caller. -/
def kernelCall (env : Env) (c : Call) (m : Machine) : OS_ERR × Machine :=
  let e := env.reply m.errs.length
  (e, { m with trace := m.trace ++ [c], errs := m.errs ++ [e] })

/-- Console write `UCOS_Print(str)`: no status is produced. -/
def UCOS_Print (str : String) (m : Machine) : Machine :=
  { m with trace := m.trace ++ [Call.UCOS_Print str] }

/-- Volatile read of the 32-bit register at `XPAR_AXI_GPIO_BTN_BASEADDR`. -/
def readButtons (env : Env) (m : Machine) : Nat × Machine :=
  (env.button m.reads % 2 ^ 32, { m with reads := m.reads + 1 })

def OSInit (env : Env) (m : Machine) : OS_ERR × Machine :=
  kernelCall env Call.OSInit m

def OSTaskCreate (env : Env) (args : TaskCreateArgs) (m : Machine) : OS_ERR × Machine :=
  kernelCall env (Call.OSTaskCreate args) m

def OSStart (env : Env) (m : Machine) : OS_ERR × Machine :=
  kernelCall env Call.OSStart m

def OSMutexCreate (env : Env) (p_mutex : OS_MUTEX) (p_name : String) (m : Machine) :
    OS_ERR × Machine :=
  kernelCall env (Call.OSMutexCreate p_mutex p_name) m

def OSMutexPend (env : Env) (p_mutex : OS_MUTEX) (timeout : Nat) (opt : OS_OPT)
    (m : Machine) : OS_ERR × Machine :=
  kernelCall env (Call.OSMutexPend p_mutex timeout opt) m

def OSMutexPost (env : Env) (p_mutex : OS_MUTEX) (opt : OS_OPT) (m : Machine) :
    OS_ERR × Machine :=
  kernelCall env (Call.OSMutexPost p_mutex opt) m

def OSTimeDlyHMSM (env : Env) (hours minutes seconds milli : Nat) (opt : OS_OPT)
    (m : Machine) : OS_ERR × Machine :=
  kernelCall env (Call.OSTimeDlyHMSM hours minutes seconds milli opt) m

/-! ## The application functions -/

/-- `AppPrintWelcomeMsg` (lines 191-203): ten direct console writes. -/
def AppPrintWelcomeMsg (m : Machine) : Machine :=
  let m := UCOS_Print "\x0c\x0c\r\n" m
  let m := UCOS_Print "Micrium\r\n" m
  let m := UCOS_Print "uCOS-III\r\n\r\n" m
  let m := UCOS_Print "This application runs three different tasks:\r\n\r\n" m
  let m := UCOS_Print "1. Task Start: Initializes the OS and creates tasks and\r\n" m
  let m := UCOS_Print "               other kernel objects such as semaphores.\r\n" m
  let m := UCOS_Print "               This task remains running and printing a\r\n" m
  let m := UCOS_Print "               dot \x27.\x27 every 100 milliseconds.\r\n" m
  let m := UCOS_Print "2. Task #1   : Prints \x271\x27 every 1-second.\r\n" m
  let m := UCOS_Print "3. Task #2   : Prints \x272\x27 every 2-seconds.\r\n\r\n" m
  m

/-- `AppPrint` (lines 389-408): pend on the print mutex, write, post. Neither status is
read. -/
def AppPrint (env : Env) (str : String) (m : Machine) : Machine :=
  let (err, m) := OSMutexPend env OS_MUTEX.AppMutexPrint 0 OS_OPT.OS_OPT_PEND_BLOCKING m
  let m := UCOS_Print str m
  let (err, m) := OSMutexPost env OS_MUTEX.AppMutexPrint OS_OPT.OS_OPT_POST_NONE m
  m

/-- `AppTaskCreate` (lines 256-288): creates Task 1, then Task 2. -/
def AppTaskCreate (env : Env) (m : Machine) : Machine :=
  let (err, m) := OSTaskCreate env
    { p_tcb := OS_TCB.AppTask1TCB
      p_name := "Task 1"
      p_task := OS_TASK_PTR.AppTask1
      p_arg := 0
      prio := APP_TASK1_PRIO
      p_stk_base := CPU_STK.AppTask1Stk
      stk_limit := APP_TASK1_STK_SIZE / 10
      stk_size := APP_TASK1_STK_SIZE
      q_size := 0
      time_quanta := 0
      p_ext := 0
      opt := [OS_OPT.OS_OPT_TASK_STK_CHK, OS_OPT.OS_OPT_TASK_STK_CLR] } m
  let (err, m) := OSTaskCreate env
    { p_tcb := OS_TCB.AppTask2TCB
      p_name := "Task 2"
      p_task := OS_TASK_PTR.AppTask2
      p_arg := 0
      prio := APP_TASK2_PRIO
      p_stk_base := CPU_STK.AppTask2Stk
      stk_limit := APP_TASK2_STK_SIZE / 10
      stk_size := APP_TASK2_STK_SIZE
      q_size := 0
      time_quanta := 0
      p_ext := 0
      opt := [OS_OPT.OS_OPT_TASK_STK_CHK, OS_OPT.OS_OPT_TASK_STK_CLR] } m
  m

/-- One iteration of the loop of `AppTaskStart` (lines 230-237). -/
def AppTaskStart_body (env : Env) (m : Machine) : Machine :=
  let (err, m) := OSTimeDlyHMSM env 0 0 0 100 OS_OPT.OS_OPT_TIME_HMSM_STRICT m
  let m := AppPrint env "." m
  m

/-- The statements of `AppTaskStart` before its loop (lines 225-228). -/
def AppTaskStart_entry (env : Env) (m : Machine) : Machine :=
  let m := UCOS_Print "Task Start Created\r\n" m
  let m := AppTaskCreate env m
  let (err, m) := OSMutexCreate env OS_MUTEX.AppMutexPrint "My App. Mutex" m
  m

/-- `AppTaskStart` (lines 221-238) after `n` iterations of its loop. -/
def AppTaskStart (env : Env) (n : Nat) (m : Machine) : Machine :=
  (AppTaskStart_body env)^[n] (AppTaskStart_entry env m)

/-- The local variables of `AppTask1` other than `err`; `but` has no initialiser. -/
structure Task1Locals where
  but : Option Nat
  new_dataR : Nat
  old_dataR : Nat
  new_dataL : Nat
  old_dataL : Nat
  deriving DecidableEq, Repr

/-- One iteration of the loop of `AppTask1` (lines 316-332). -/
def AppTask1_body (env : Env) (s : Task1Locals × Machine) : Task1Locals × Machine :=
  let (l, m) := s
  let (but, m) := readButtons env m
  let new_dataR := 0x00000001 &&& but
  let new_dataL := (0x00000002 &&& but) >>> 1
  let (err, m) := OSTimeDlyHMSM env 0 0 1 0 OS_OPT.OS_OPT_TIME_HMSM_STRICT m
  let m := AppPrint env "1" m
  ({ l with but := some but, new_dataR := new_dataR, new_dataL := new_dataL }, m)

/-- The statements of `AppTask1` before its loop (lines 310-314). -/
def AppTask1_entry (env : Env) (m : Machine) : Task1Locals × Machine :=
  let l : Task1Locals :=
    { but := none, new_dataR := 0, old_dataR := 0, new_dataL := 0, old_dataL := 0 }
  let m := AppPrint env "Task #1 Started\r\n" m
  (l, m)

/-- `AppTask1` (lines 306-333) after `n` iterations of its loop. -/
def AppTask1 (env : Env) (n : Nat) (m : Machine) : Task1Locals × Machine :=
  (AppTask1_body env)^[n] (AppTask1_entry env m)

/-- One iteration of the loop of `AppTask2` (lines 360-368). -/
def AppTask2_body (env : Env) (m : Machine) : Machine :=
  let (err, m) := OSTimeDlyHMSM env 0 0 2 0 OS_OPT.OS_OPT_TIME_HMSM_STRICT m
  let m := AppPrint env "2" m
  m

/-- The statements of `AppTask2` before its loop (line 358). -/
def AppTask2_entry (env : Env) (m : Machine) : Machine :=
  AppPrint env "Task #2 Started\r\n" m

/-- `AppTask2` (lines 351-369) after `n` iterations of its loop. -/
def AppTask2 (env : Env) (n : Nat) (m : Machine) : Machine :=
  (AppTask2_body env)^[n] (AppTask2_entry env m)

/-! ## MainTask as a step function -/

/-- Control points of `MainTask` (lines 144-171). `inOSStart` is control inside an
`OSStart` that does not come back; `atSpin` is the test of `while (1)`, whose exit would
fall off the end of the function; `returned` is control back in the caller. -/
inductive MainPc
  | atWelcome
  | atOSInit
  | atOSTaskCreate
  | atOSStart
  | inOSStart
  | atSpin
  | returned
  deriving DecidableEq, Repr

/-- Control point and activation record of `MainTask`. -/
structure MainCfg where
  pc : MainPc
  m : Machine
  deriving DecidableEq, Repr

/-- Entry of `MainTask`. -/
def MainCfg.entry : MainCfg := { pc := MainPc.atWelcome, m := Machine.start }

/-- One statement of `MainTask`. -/
def MainTask_step (env : Env) (c : MainCfg) : MainCfg :=
  match c.pc with
  | MainPc.atWelcome => { pc := MainPc.atOSInit, m := AppPrintWelcomeMsg c.m }
  | MainPc.atOSInit =>
    let (err, m) := OSInit env c.m
    { pc := MainPc.atOSTaskCreate, m := m }
  | MainPc.atOSTaskCreate =>
    let (err, m) := OSTaskCreate env
      { p_tcb := OS_TCB.AppTaskStartTCB
        p_name := "App Task Start"
        p_task := OS_TASK_PTR.AppTaskStart
        p_arg := 0
        prio := APP_TASK_START_PRIO
        p_stk_base := CPU_STK.AppTaskStartStk
        stk_limit := APP_TASK_START_STK_SIZE / 10
        stk_size := APP_TASK_START_STK_SIZE
        q_size := 0
        time_quanta := 0
        p_ext := 0
        opt := [OS_OPT.OS_OPT_TASK_STK_CHK, OS_OPT.OS_OPT_TASK_STK_CLR] } c.m
    { pc := MainPc.atOSStart, m := m }
  | MainPc.atOSStart =>
    if env.startReturns then
      let (err, m) := OSStart env c.m
      { pc := MainPc.atSpin, m := m }
    else { pc := MainPc.inOSStart, m := { c.m with trace := c.m.trace ++ [Call.OSStart] } }
  | MainPc.inOSStart => c
  | MainPc.atSpin => if (1 : Nat) ≠ 0 then c else { c with pc := MainPc.returned }
  | MainPc.returned => c

/-- `MainTask` after `n` statements. -/
def MainTask (env : Env) (n : Nat) : MainCfg :=
  (MainTask_step env)^[n] MainCfg.entry

/-- `main` (lines 123-129) observed after `n` statements of `MainTask`: its `return 0`
is taken once `MainTask`, run by `UCOSStartup`, is back in its caller. -/
def main (env : Env) (n : Nat) : Option Int :=
  if (MainTask env n).pc = MainPc.returned then some 0 else none

/-- Number of statements `MainTask` executes up to and including `OSStart`. -/
def MainTask_bootSteps : Nat := 4

/-! ## The code of a task as a sequence of calls -/

/-- An environment in which every kernel call succeeds and no button is pressed. -/
def Env.quiet : Env :=
  { reply := fun _ => OS_ERR.OS_ERR_NONE, button := fun _ => 0, startReturns := false }

/-- The calls issued by the body of a task entry point unrolled `n` times. -/
def bodyTrace (f : OS_TASK_PTR) (n : Nat) : List Call :=
  match f with
  | OS_TASK_PTR.MainTask => (MainTask Env.quiet n).m.trace
  | OS_TASK_PTR.AppTaskStart => (AppTaskStart Env.quiet n Machine.start).trace
  | OS_TASK_PTR.AppTask1 => (AppTask1 Env.quiet n Machine.start).2.trace
  | OS_TASK_PTR.AppTask2 => (AppTask2 Env.quiet n Machine.start).trace

/-- The `k`-th call a task issues, if there is one: after `k + 1` loop iterations a task
has issued more than `k` calls. -/
def taskCode (f : OS_TASK_PTR) (k : Nat) : Option Call :=
  (bodyTrace f (k + 1)).get? k

/-! ## System model: scheduler, delays and the mutex -/

/-- Modelled from the spec: the task states of section 3. The kernel is not part of the
sources. `Running` is not stored: the running task is the best-priority `Ready` one
(section 4.1). -/
inductive TaskState
  | Dormant
  | Ready
  | BlockedOnDelay
  | BlockedOnMutex
  deriving DecidableEq, Repr

/-- Modelled from the spec: a task descriptor of the registry of section 2 (identity,
priority, state), with the number of calls of its body issued so far. -/
structure Task where
  entry : OS_TASK_PTR
  prio : Nat
  state : TaskState
  pc : Nat
  deriving DecidableEq, Repr

/-- Modelled from the spec: the mutex of section 3, an optional owner and a wait set kept
in priority order, best first. -/
structure Mutex where
  owner : Option OS_TASK_PTR
  waiters : List OS_TASK_PTR
  deriving DecidableEq, Repr

/-- Modelled from the spec: insertion into the wait set in priority order (lower value is
better), behind waiters of the same priority. -/
def insertByPrio (prio : OS_TASK_PTR → Nat) (t : OS_TASK_PTR) :
    List OS_TASK_PTR → List OS_TASK_PTR
  | [] => [t]
  | w :: ws => if prio t < prio w then t :: w :: ws else w :: insertByPrio prio t ws

/-- Modelled from the spec: `acquire` of section 4.3. A free mutex is taken at once; a
held one puts the caller into the wait set, and the flag says that the caller blocks. -/
def Mutex.acquire (prio : OS_TASK_PTR → Nat) (t : OS_TASK_PTR) (mx : Mutex) : Mutex × Bool :=
  match mx.owner with
  | none => ({ mx with owner := some t }, false)
  | some _ => ({ mx with waiters := insertByPrio prio t mx.waiters }, true)

/-- Modelled from the spec: `release` of section 4.3. A caller that is not the owner gets
`NotOwner` and nothing changes; otherwise the mutex becomes free, or is handed directly
to the best waiter, which is returned to be made ready. -/
def Mutex.release (t : OS_TASK_PTR) (mx : Mutex) : Except OS_ERR (Mutex × Option OS_TASK_PTR) :=
  if mx.owner = some t then
    match mx.waiters with
    | [] => Except.ok ({ owner := none, waiters := [] }, none)
    | w :: ws => Except.ok ({ owner := some w, waiters := ws }, some w)
  else Except.error OS_ERR.NotOwner

/-- Ways in which the application leaves the kernel contract. -/
inductive Fault
  | mutexUsedBeforeCreate (t : OS_TASK_PTR) (c : Call)
  deriving DecidableEq, Repr

/-- Modelled from the spec: the scheduler context of section 9 (task table in creation
order, the print mutex, absent until created), with the console sink of section 6, the
log of all calls with their callers, and the fault that stopped the system, if any. -/
structure Sys where
  tasks : List Task
  mutex : Option Mutex
  console : String
  log : List (OS_TASK_PTR × Call)
  fault : Option Fault
  deriving DecidableEq, Repr

/-- Nothing created, nothing written. -/
def Sys.empty : Sys := { tasks := [], mutex := none, console := "", log := [], fault := none }

/-- Priority of a task as recorded at its creation. -/
def Sys.prioOf (s : Sys) (t : OS_TASK_PTR) : Nat :=
  match s.tasks.find? (fun x => x.entry = t) with
  | some x => x.prio
  | none => 0

/-- State of a task; a task never created is dormant. -/
def Sys.stateOf (s : Sys) (t : OS_TASK_PTR) : TaskState :=
  match s.tasks.find? (fun x => x.entry = t) with
  | some x => x.state
  | none => TaskState.Dormant

def Sys.setState (s : Sys) (t : OS_TASK_PTR) (st : TaskState) : Sys :=
  { s with tasks := s.tasks.map (fun x => if x.entry = t then { x with state := st } else x) }

def Sys.advance (s : Sys) (t : OS_TASK_PTR) : Sys :=
  { s with tasks := s.tasks.map (fun x => if x.entry = t then { x with pc := x.pc + 1 } else x) }

/-- Modelled from the spec: the choice of section 4.1, the ready task with the best
priority, the earliest created one among equals. -/
def bestReady : List Task → Option Task
  | [] => none
  | x :: xs =>
    match bestReady xs with
    | none => if x.state = TaskState.Ready then some x else none
    | some y => if x.state = TaskState.Ready ∧ x.prio ≤ y.prio then some x else some y

def Sys.running (s : Sys) : Option Task := bestReady s.tasks

/-- Modelled from the spec: the effect of one call by task `t` on the system, with the
status the kernel reports. Task creation makes the new task ready (section 4.1), a delay
blocks the caller (section 4.2), pend and post are `acquire` and `release` (section
4.3), a console write appends to the sink (section 6). A pend or post on the mutex
before its creation is outside the contract ("created once before use", section 3) and
stops the system. -/
def Sys.exec (s : Sys) (t : OS_TASK_PTR) (c : Call) : OS_ERR × Sys :=
  match c with
  | Call.UCOS_Print str => (OS_ERR.OS_ERR_NONE, { s with console := s.console ++ str })
  | Call.OSInit => (OS_ERR.OS_ERR_NONE, s)
  | Call.OSStart => (OS_ERR.OS_ERR_NONE, s)
  | Call.OSTaskCreate a =>
    (OS_ERR.OS_ERR_NONE,
      { s with tasks := s.tasks ++
          [{ entry := a.p_task, prio := a.prio, state := TaskState.Ready, pc := 0 }] })
  | Call.OSMutexCreate _ _ =>
    (OS_ERR.OS_ERR_NONE, { s with mutex := some { owner := none, waiters := [] } })
  | Call.OSMutexPend _ _ _ =>
    match s.mutex with
    | none => (OS_ERR.other 0, { s with fault := some (Fault.mutexUsedBeforeCreate t c) })
    | some mx =>
      match mx.acquire s.prioOf t with
      | (mx1, false) => (OS_ERR.OS_ERR_NONE, { s with mutex := some mx1 })
      | (mx1, true) =>
        (OS_ERR.OS_ERR_NONE, { s with mutex := some mx1 }.setState t TaskState.BlockedOnMutex)
  | Call.OSMutexPost _ _ =>
    match s.mutex with
    | none => (OS_ERR.other 0, { s with fault := some (Fault.mutexUsedBeforeCreate t c) })
    | some mx =>
      match mx.release t with
      | Except.error e => (e, s)
      | Except.ok (mx1, none) => (OS_ERR.OS_ERR_NONE, { s with mutex := some mx1 })
      | Except.ok (mx1, some w) =>
        (OS_ERR.OS_ERR_NONE, { s with mutex := some mx1 }.setState w TaskState.Ready)
  | Call.OSTimeDlyHMSM _ _ _ _ _ =>
    (OS_ERR.OS_ERR_NONE, s.setState t TaskState.BlockedOnDelay)

/-- What can happen next: the running task issues its next call, or the delay of a task
expires. -/
inductive Event
  | run
  | wake (t : OS_TASK_PTR)
  deriving DecidableEq, Repr

/-- Modelled from the spec: one step of the system. The running task is always the best
ready one, so a task made ready with a better priority runs at the very next step
(sections 4.1 and 5); an expired delay makes its task ready again (section 4.2). -/
def Sys.step (s : Sys) (e : Event) : Sys :=
  if s.fault.isSome then s
  else
    match e with
    | Event.wake t =>
      if s.stateOf t = TaskState.BlockedOnDelay then s.setState t TaskState.Ready else s
    | Event.run =>
      match s.running with
      | none => s
      | some x =>
        match taskCode x.entry x.pc with
        | none => s
        | some c =>
          ({ s with log := s.log ++ [(x.entry, c)] }.advance x.entry |>.exec x.entry c).2

/-- The system after a sequence of events. -/
def Sys.run (s : Sys) (es : List Event) : Sys := es.foldl Sys.step s

/-- The system at the start of multitasking: the effect of the calls of `MainTask` up to
`OSStart` on the empty system, with an empty log. -/
def Sys.boot : Sys :=
  { (bodyTrace OS_TASK_PTR.MainTask MainTask_bootSteps).foldl
      (fun s c => (s.exec OS_TASK_PTR.MainTask c).2) Sys.empty with log := [] }

/-! ## Vocabulary of the properties -/

/-- The blocking pend on the print mutex with timeout 0, as issued by `AppPrint`. -/
def pendPrintMutex : Call :=
  Call.OSMutexPend OS_MUTEX.AppMutexPrint 0 OS_OPT.OS_OPT_PEND_BLOCKING

/-- The post on the print mutex, as issued by `AppPrint`. -/
def postPrintMutex : Call :=
  Call.OSMutexPost OS_MUTEX.AppMutexPrint OS_OPT.OS_OPT_POST_NONE

/-- The three operations of a mutex-protected write of `str`. -/
def guardedWrite (str : String) : List Call :=
  [pendPrintMutex, Call.UCOS_Print str, postPrintMutex]

/-- A strict delay of the given hours, minutes, seconds and milliseconds. -/
def strictDelay (hours minutes seconds milli : Nat) : Call :=
  Call.OSTimeDlyHMSM hours minutes seconds milli OS_OPT.OS_OPT_TIME_HMSM_STRICT

/-- Length in milliseconds of the delay a call requests. -/
def delayMillis : Call → Option Nat
  | Call.OSTimeDlyHMSM h mi s ms _ => some (((h * 60 + mi) * 60 + s) * 1000 + ms)
  | _ => none

/-- The block of calls of one loop iteration, `n` times over. -/
def periodic (block : List Call) : Nat → List Call
  | 0 => []
  | n + 1 => block ++ periodic block n

/-- For every console write of `str` in a trace, the number of delays requested before
it, counting from `d`. -/
def delaysBeforeWrites (str : String) : List Call → Nat → List Nat
  | [], _ => []
  | c :: rest, d =>
    match c with
    | Call.OSTimeDlyHMSM _ _ _ _ _ => delaysBeforeWrites str rest (d + 1)
    | Call.UCOS_Print s =>
      if s = str then d :: delaysBeforeWrites str rest d else delaysBeforeWrites str rest d
    | _ => delaysBeforeWrites str rest d

/-- The task and priority of every `OSTaskCreate` in a trace. -/
def createdTasks : List Call → List (OS_TASK_PTR × Nat)
  | [] => []
  | Call.OSTaskCreate a :: rest => (a.p_task, a.prio) :: createdTasks rest
  | _ :: rest => createdTasks rest

/-- Whether a call creates a kernel object: a task or a mutex. -/
def createsObject : Call → Bool
  | Call.OSTaskCreate _ => true
  | Call.OSMutexCreate _ _ => true
  | _ => false

/-- The calls of `AppTaskStart` before its loop. -/
def startTaskEntryCalls : List Call :=
  [ Call.UCOS_Print "Task Start Created\r\n",
    Call.OSTaskCreate
      { p_tcb := OS_TCB.AppTask1TCB, p_name := "Task 1", p_task := OS_TASK_PTR.AppTask1,
        p_arg := 0, prio := 2, p_stk_base := CPU_STK.AppTask1Stk, stk_limit := 51,
        stk_size := 512, q_size := 0, time_quanta := 0, p_ext := 0,
        opt := [OS_OPT.OS_OPT_TASK_STK_CHK, OS_OPT.OS_OPT_TASK_STK_CLR] },
    Call.OSTaskCreate
      { p_tcb := OS_TCB.AppTask2TCB, p_name := "Task 2", p_task := OS_TASK_PTR.AppTask2,
        p_arg := 0, prio := 3, p_stk_base := CPU_STK.AppTask2Stk, stk_limit := 51,
        stk_size := 512, q_size := 0, time_quanta := 0, p_ext := 0,
        opt := [OS_OPT.OS_OPT_TASK_STK_CHK, OS_OPT.OS_OPT_TASK_STK_CLR] },
    Call.OSMutexCreate OS_MUTEX.AppMutexPrint "My App. Mutex" ]

/-- The calls of `MainTask` after the welcome message. -/
def bootCalls : List Call :=
  [ Call.OSInit,
    Call.OSTaskCreate
      { p_tcb := OS_TCB.AppTaskStartTCB, p_name := "App Task Start",
        p_task := OS_TASK_PTR.AppTaskStart, p_arg := 0, prio := 8,
        p_stk_base := CPU_STK.AppTaskStartStk, stk_limit := 51, stk_size := 512,
        q_size := 0, time_quanta := 0, p_ext := 0,
        opt := [OS_OPT.OS_OPT_TASK_STK_CHK, OS_OPT.OS_OPT_TASK_STK_CLR] },
    Call.OSStart ]

/-- Whether a call is a console write. -/
def isWrite : Call → Bool
  | Call.UCOS_Print _ => true
  | _ => false

/-- Whether a call is a pend on the print mutex. -/
def isPendOnPrintMutex : Call → Bool
  | Call.OSMutexPend OS_MUTEX.AppMutexPrint _ _ => true
  | _ => false

/-- Whether a call is a post on the print mutex. -/
def isPostOnPrintMutex : Call → Bool
  | Call.OSMutexPost OS_MUTEX.AppMutexPrint _ => true
  | _ => false

/-- Whether every console write of a trace that follows the call `prev` has a pend on the
print mutex right before it and a post on the print mutex right after it. -/
def writesGuardedAfter (prev : Option Call) : List Call → Bool
  | [] => true
  | c :: rest =>
    (!isWrite c
      || ((prev.map isPendOnPrintMutex).getD false
          && (rest.head?.map isPostOnPrintMutex).getD false))
    && writesGuardedAfter (some c) rest

/-- Whether every console write of a trace is bracketed by pend and post. -/
def writesGuarded (tr : List Call) : Bool := writesGuardedAfter none tr

/-- An environment in which the `k`-th kernel call fails with `ResourceExhausted` and
every other call succeeds. -/
def Env.failingAt (k : Nat) : Env :=
  { reply := fun i => if i = k then OS_ERR.ResourceExhausted else OS_ERR.OS_ERR_NONE
    button := fun _ => 0
    startReturns := false }

/-- The strings handed to `AppPrint` anywhere in the program (lines 236, 314, 330, 358
and 366). -/
def AppPrint_arguments : List String :=
  [".", "Task #1 Started\r\n", "1", "Task #2 Started\r\n", "2"]

/-- Concatenation of a list of strings. -/
def concatAll : List String → String
  | [] => ""
  | p :: ps => p ++ concatAll ps

/-- Whether a console stream is a concatenation of whole `AppPrint` argument strings. -/
def IsConcatOfAppPrintArgs (stream : String) : Prop :=
  ∃ parts : List String, (∀ p ∈ parts, p ∈ AppPrint_arguments) ∧ concatAll parts = stream

/-- The log of the first three steps of the system after the start of multitasking. -/
def firstThreeCalls : List (OS_TASK_PTR × Call) :=
  [ (OS_TASK_PTR.AppTaskStart, Call.UCOS_Print "Task Start Created\r\n"),
    (OS_TASK_PTR.AppTaskStart, startTaskEntryCalls.get ⟨1, by decide⟩),
    (OS_TASK_PTR.AppTask1, pendPrintMutex) ]

/-- The system after `k` calls since the start of multitasking, no delay having expired. -/
def Sys.afterCalls (k : Nat) : Sys := Sys.boot.run (List.replicate k Event.run)

/-- A system in which Task 1 has created the print mutex and then acquired it. -/
def Sys.task1Owns : Sys :=
  ((Sys.boot.exec OS_TASK_PTR.AppTask1
      (Call.OSMutexCreate OS_MUTEX.AppMutexPrint "My App. Mutex")).2.exec
    OS_TASK_PTR.AppTask1 pendPrintMutex).2

/-- The system after task `t`, back from its pend, has written `str` and posted: the
status of the post and the resulting system. -/
def Sys.afterWriteAndPost (s : Sys) (t : OS_TASK_PTR) (str : String) : OS_ERR × Sys :=
  (s.exec t (Call.UCOS_Print str)).2.exec t postPrintMutex

/-- A system in which all three tasks exist, Task 2 owns the print mutex, and the start
task and then Task 1 have pended on it. -/
def Sys.contended : Sys :=
  [ (OS_TASK_PTR.AppTaskStart, startTaskEntryCalls.get ⟨1, by decide⟩),
    (OS_TASK_PTR.AppTaskStart, startTaskEntryCalls.get ⟨2, by decide⟩),
    (OS_TASK_PTR.AppTaskStart, startTaskEntryCalls.get ⟨3, by decide⟩),
    (OS_TASK_PTR.AppTask2, pendPrintMutex),
    (OS_TASK_PTR.AppTaskStart, pendPrintMutex),
    (OS_TASK_PTR.AppTask1, pendPrintMutex) ].foldl (fun s x => (s.exec x.1 x.2).2) Sys.boot

/-! ## Traces of the application functions -/

theorem periodic_succ_end (block : List Call) (n : Nat) :
    periodic block (n + 1) = periodic block n ++ block := by
  induction n with
  | zero => simp [periodic]
  | succ k ih =>
    calc periodic block (k + 1 + 1)
        = block ++ periodic block (k + 1) := rfl
      _ = block ++ (periodic block k ++ block) := by rw [ih]
      _ = (block ++ periodic block k) ++ block := by rw [List.append_assoc]
      _ = periodic block (k + 1) ++ block := rfl

theorem AppPrint_trace (env : Env) (str : String) (m : Machine) :
    (AppPrint env str m).trace = m.trace ++ guardedWrite str := by
  simp [AppPrint, OSMutexPend, OSMutexPost, UCOS_Print, kernelCall, guardedWrite,
    pendPrintMutex, postPrintMutex]

theorem AppPrintWelcomeMsg_trace (m : Machine) :
    (AppPrintWelcomeMsg m).trace = m.trace ++ (AppPrintWelcomeMsg Machine.start).trace := by
  simp [AppPrintWelcomeMsg, UCOS_Print, Machine.start]

theorem AppTaskCreate_trace (env : Env) (m : Machine) :
    (AppTaskCreate env m).trace
      = m.trace ++ [startTaskEntryCalls.get ⟨1, by decide⟩, startTaskEntryCalls.get ⟨2, by decide⟩] := by
  simp [AppTaskCreate, OSTaskCreate, kernelCall, startTaskEntryCalls, APP_TASK1_PRIO,
    APP_TASK2_PRIO, APP_TASK1_STK_SIZE, APP_TASK2_STK_SIZE]

theorem AppTaskStart_entry_trace (env : Env) (m : Machine) :
    (AppTaskStart_entry env m).trace = m.trace ++ startTaskEntryCalls := by
  simp [AppTaskStart_entry, AppTaskCreate_trace, OSMutexCreate, kernelCall, UCOS_Print,
    startTaskEntryCalls]

theorem AppTaskStart_body_trace (env : Env) (m : Machine) :
    (AppTaskStart_body env m).trace
      = m.trace ++ (strictDelay 0 0 0 100 :: guardedWrite ".") := by
  simp [AppTaskStart_body, AppPrint_trace, OSTimeDlyHMSM, kernelCall, strictDelay]

theorem AppTaskStart_trace (env : Env) (n : Nat) (m : Machine) :
    (AppTaskStart env n m).trace
      = m.trace ++ startTaskEntryCalls
          ++ periodic (strictDelay 0 0 0 100 :: guardedWrite ".") n := by
  induction n with
  | zero => simp [AppTaskStart, periodic, AppTaskStart_entry_trace]
  | succ k ih =>
    have hstep : AppTaskStart env (k + 1) m = AppTaskStart_body env (AppTaskStart env k m) := by
      simp only [AppTaskStart, Function.iterate_succ_apply']
    rw [hstep, AppTaskStart_body_trace, ih, periodic_succ_end]
    simp [List.append_assoc]

theorem AppTask1_body_trace (env : Env) (s : Task1Locals × Machine) :
    (AppTask1_body env s).2.trace = s.2.trace ++ (strictDelay 0 0 1 0 :: guardedWrite "1") := by
  simp [AppTask1_body, AppPrint_trace, OSTimeDlyHMSM, kernelCall, readButtons, strictDelay]

theorem AppTask1_trace (env : Env) (n : Nat) (m : Machine) :
    (AppTask1 env n m).2.trace
      = m.trace ++ guardedWrite "Task #1 Started\r\n"
          ++ periodic (strictDelay 0 0 1 0 :: guardedWrite "1") n := by
  induction n with
  | zero => simp [AppTask1, AppTask1_entry, periodic, AppPrint_trace]
  | succ k ih =>
    have hstep : AppTask1 env (k + 1) m = AppTask1_body env (AppTask1 env k m) := by
      simp only [AppTask1, Function.iterate_succ_apply']
    rw [hstep, AppTask1_body_trace, ih, periodic_succ_end]
    simp [List.append_assoc]

theorem AppTask2_body_trace (env : Env) (m : Machine) :
    (AppTask2_body env m).trace = m.trace ++ (strictDelay 0 0 2 0 :: guardedWrite "2") := by
  simp [AppTask2_body, AppPrint_trace, OSTimeDlyHMSM, kernelCall, strictDelay]

theorem AppTask2_trace (env : Env) (n : Nat) (m : Machine) :
    (AppTask2 env n m).trace
      = m.trace ++ guardedWrite "Task #2 Started\r\n"
          ++ periodic (strictDelay 0 0 2 0 :: guardedWrite "2") n := by
  induction n with
  | zero => simp [AppTask2, AppTask2_entry, periodic, AppPrint_trace]
  | succ k ih =>
    have hstep : AppTask2 env (k + 1) m = AppTask2_body env (AppTask2 env k m) := by
      simp only [AppTask2, Function.iterate_succ_apply']
    rw [hstep, AppTask2_body_trace, ih, periodic_succ_end]
    simp [List.append_assoc]

/-! ## MainTask -/

theorem MainTask_succ (env : Env) (n : Nat) :
    MainTask env (n + 1) = MainTask_step env (MainTask env n) := by
  simp only [MainTask, Function.iterate_succ_apply']

theorem MainTask_boot_trace (env : Env) :
    (MainTask env 4).m.trace = (AppPrintWelcomeMsg Machine.start).trace ++ bootCalls := by
  cases hs : env.startReturns <;>
    simp [MainTask, MainTask_step, MainCfg.entry, OSInit, OSTaskCreate, OSStart, kernelCall,
      bootCalls, hs, APP_TASK_START_PRIO, APP_TASK_START_STK_SIZE]

theorem MainTask_boot_pc (env : Env) :
    (MainTask env 4).pc = MainPc.atSpin ∨ (MainTask env 4).pc = MainPc.inOSStart := by
  cases hs : env.startReturns <;>
    simp [MainTask, MainTask_step, MainCfg.entry, OSInit, OSTaskCreate, OSStart, kernelCall, hs]

theorem MainTask_after_boot (env : Env) (k : Nat) : MainTask env (4 + k) = MainTask env 4 := by
  induction k with
  | zero => rfl
  | succ j ih =>
    have h4 := MainTask_boot_pc env
    rw [← Nat.add_assoc, MainTask_succ, ih]
    rcases h4 with h | h <;> simp [MainTask_step, h]

theorem MainTask_step_not_returned (env : Env) (c : MainCfg) (h : c.pc ≠ MainPc.returned) :
    (MainTask_step env c).pc ≠ MainPc.returned := by
  cases hp : c.pc with
  | returned => exact absurd hp h
  | atOSStart =>
    cases hs : env.startReturns <;> simp [MainTask_step, hp, hs, OSStart, kernelCall]
  | atWelcome => simp [MainTask_step, hp]
  | atOSInit => simp [MainTask_step, hp, OSInit, kernelCall]
  | atOSTaskCreate => simp [MainTask_step, hp, OSTaskCreate, kernelCall]
  | inOSStart => simp [MainTask_step, hp]
  | atSpin => simp [MainTask_step, hp]

theorem MainTask_pc_not_returned (env : Env) (n : Nat) :
    (MainTask env n).pc ≠ MainPc.returned := by
  induction n with
  | zero => simp [MainTask, MainCfg.entry]
  | succ k ih =>
    rw [MainTask_succ]
    exact MainTask_step_not_returned env _ ih

theorem createdTasks_append (a b : List Call) :
    createdTasks (a ++ b) = createdTasks a ++ createdTasks b := by
  induction a with
  | nil => rfl
  | cons c cs ih => cases c <;> simp [createdTasks, ih]

theorem createdTasks_periodic (block : List Call) (hb : createdTasks block = []) (n : Nat) :
    createdTasks (periodic block n) = [] := by
  induction n with
  | zero => rfl
  | succ k ih => simp [periodic, createdTasks_append, hb, ih]

theorem filter_createsObject_periodic (block : List Call)
    (hb : block.filter createsObject = []) (n : Nat) :
    (periodic block n).filter createsObject = [] := by
  induction n with
  | zero => rfl
  | succ k ih => simp [periodic, List.filter_append, hb, ih]

/-- C6: up to the start of scheduling `MainTask` issues exactly the ten welcome-message
writes, then `OSInit`, then one `OSTaskCreate` for `AppTaskStart` with priority 8 and
stack size 512, then `OSStart`, and nothing afterwards. All welcome writes are direct
console writes and precede `OSStart`; `MainTask` creates no worker task and no mutex; the
start task creates Task 1, Task 2 and the mutex, and the two workers create nothing. -/
theorem bootstrap_order (env : Env) (n : Nat) :
    (MainTask env 3).m.trace
        = (AppPrintWelcomeMsg Machine.start).trace ++ [Call.OSInit, bootCalls.get ⟨1, by decide⟩]
      ∧ (MainTask env 3).pc = MainPc.atOSStart
      ∧ (MainTask env (4 + n)).m.trace
        = (AppPrintWelcomeMsg Machine.start).trace ++ bootCalls
      ∧ (AppPrintWelcomeMsg Machine.start).trace.length = 10
      ∧ (AppPrintWelcomeMsg Machine.start).trace.all
          (fun c => match c with
            | Call.UCOS_Print _ => true
            | _ => false) = true
      ∧ createdTasks (MainTask env (4 + n)).m.trace = [(OS_TASK_PTR.AppTaskStart, 8)]
      ∧ (bootCalls.get ⟨1, by decide⟩
          = Call.OSTaskCreate
              { p_tcb := OS_TCB.AppTaskStartTCB, p_name := "App Task Start",
                p_task := OS_TASK_PTR.AppTaskStart, p_arg := 0, prio := APP_TASK_START_PRIO,
                p_stk_base := CPU_STK.AppTaskStartStk,
                stk_limit := APP_TASK_START_STK_SIZE / 10,
                stk_size := APP_TASK_START_STK_SIZE, q_size := 0, time_quanta := 0,
                p_ext := 0,
                opt := [OS_OPT.OS_OPT_TASK_STK_CHK, OS_OPT.OS_OPT_TASK_STK_CLR] }
          ∧ APP_TASK_START_PRIO = 8 ∧ APP_TASK_START_STK_SIZE = 512)
      ∧ (MainTask env (4 + n)).m.trace.all
          (fun c => match c with
            | Call.OSMutexCreate _ _ => false
            | _ => true) = true
      ∧ (AppTaskStart env n Machine.start).trace.filter createsObject
          = startTaskEntryCalls.tail
      ∧ createdTasks (AppTaskStart env n Machine.start).trace
          = [(OS_TASK_PTR.AppTask1, 2), (OS_TASK_PTR.AppTask2, 3)]
      ∧ (AppTask1 env n Machine.start).2.trace.filter createsObject = []
      ∧ (AppTask2 env n Machine.start).trace.filter createsObject = [] := by
  refine ⟨?_, ?_, ?_, ?_, ?_, ?_, ?_, ?_, ?_, ?_, ?_, ?_⟩
  · simp [MainTask, MainTask_step, MainCfg.entry, OSInit, OSTaskCreate, kernelCall, bootCalls,
      APP_TASK_START_PRIO, APP_TASK_START_STK_SIZE]
  · simp [MainTask, MainTask_step, MainCfg.entry, OSInit, OSTaskCreate, kernelCall]
  · rw [MainTask_after_boot, MainTask_boot_trace]
  · decide
  · decide
  · rw [MainTask_after_boot, MainTask_boot_trace]
    decide
  · decide
  · rw [MainTask_after_boot, MainTask_boot_trace]
    decide
  · rw [AppTaskStart_trace, List.filter_append, filter_createsObject_periodic _ (by decide)]
    decide
  · rw [AppTaskStart_trace, createdTasks_append,
      createdTasks_periodic _ (by decide)]
    decide
  · rw [AppTask1_trace, List.filter_append, filter_createsObject_periodic _ (by decide)]
    decide
  · rw [AppTask2_trace, List.filter_append, filter_createsObject_periodic _ (by decide)]
    decide

/-- C8: the priorities handed to the `OSTaskCreate` calls of the whole program are 8 for
the start task, 2 for Task 1 and 3 for Task 2; they are pairwise distinct, and with lower
values being better Task 1 is above Task 2, which is above the start task. The two
worker tasks create no task. -/
theorem priorities_unique (env : Env) (n : Nat) :
    createdTasks ((MainTask env (4 + n)).m.trace ++ (AppTaskStart env n Machine.start).trace
        ++ (AppTask1 env n Machine.start).2.trace ++ (AppTask2 env n Machine.start).trace)
      = [(OS_TASK_PTR.AppTaskStart, APP_TASK_START_PRIO), (OS_TASK_PTR.AppTask1, APP_TASK1_PRIO),
          (OS_TASK_PTR.AppTask2, APP_TASK2_PRIO)]
      ∧ [ APP_TASK_START_PRIO, APP_TASK1_PRIO, APP_TASK2_PRIO] = [8, 2, 3]
      ∧ List.Nodup [ APP_TASK_START_PRIO, APP_TASK1_PRIO, APP_TASK2_PRIO]
      ∧ APP_TASK1_PRIO < APP_TASK2_PRIO ∧ APP_TASK2_PRIO < APP_TASK_START_PRIO := by
  refine ⟨?_, by decide, by decide, by decide, by decide⟩
  rw [MainTask_after_boot, MainTask_boot_trace, AppTaskStart_trace, AppTask1_trace,
    AppTask2_trace]
  simp only [createdTasks_append, createdTasks_periodic _
    (show createdTasks (strictDelay 0 0 0 100 :: guardedWrite ".") = [] by decide),
    createdTasks_periodic _
    (show createdTasks (strictDelay 0 0 1 0 :: guardedWrite "1") = [] by decide),
    createdTasks_periodic _
    (show createdTasks (strictDelay 0 0 2 0 :: guardedWrite "2") = [] by decide)]
  decide

/-- C9: `MainTask` never returns: whatever the kernel answers, and whether or not
`OSStart` comes back, no number of statements brings `MainTask` to its `returned` control
point, so `main` never takes its `return 0` through a return of `MainTask`. When
`OSStart` does come back, control sits in the empty loop that follows it. -/
theorem MainTask_never_returns (env : Env) (n : Nat) :
    (MainTask env n).pc ≠ MainPc.returned
      ∧ main env n = none
      ∧ (MainTask { env with startReturns := true } (4 + n)).pc = MainPc.atSpin
      ∧ (MainTask { env with startReturns := false } (4 + n)).pc = MainPc.inOSStart := by
  refine ⟨MainTask_pc_not_returned env n, ?_, ?_, ?_⟩
  · simp [main, MainTask_pc_not_returned env n]
  · rw [MainTask_after_boot]
    simp [MainTask, MainTask_step, MainCfg.entry, OSInit, OSTaskCreate, OSStart, kernelCall]
  · rw [MainTask_after_boot]
    simp [MainTask, MainTask_step, MainCfg.entry, OSInit, OSTaskCreate, OSStart, kernelCall]

/-! ## Periodic output -/

theorem delaysBeforeWrites_append (str : String) (a b : List Call) (d : Nat) :
    delaysBeforeWrites str (a ++ b) d
      = delaysBeforeWrites str a d
          ++ delaysBeforeWrites str b (d + (a.filterMap delayMillis).length) := by
  induction a generalizing d with
  | nil => simp [delaysBeforeWrites]
  | cons c cs ih =>
    cases c with
    | UCOS_Print s =>
      by_cases hs : s = str <;>
        simp [delaysBeforeWrites, delayMillis, ih, hs]
    | OSTimeDlyHMSM h mi sec ms o =>
      simp [delaysBeforeWrites, delayMillis, ih, Nat.add_assoc, Nat.add_comm 1]
    | OSInit => simp [delaysBeforeWrites, delayMillis, ih]
    | OSTaskCreate a => simp [delaysBeforeWrites, delayMillis, ih]
    | OSStart => simp [delaysBeforeWrites, delayMillis, ih]
    | OSMutexCreate mx nm => simp [delaysBeforeWrites, delayMillis, ih]
    | OSMutexPend mx tmo o => simp [delaysBeforeWrites, delayMillis, ih]
    | OSMutexPost mx o => simp [delaysBeforeWrites, delayMillis, ih]

theorem delaysBeforeWrites_periodic (block : List Call) (str : String)
    (h1 : (block.filterMap delayMillis).length = 1)
    (h2 : ∀ d, delaysBeforeWrites str block d = [d + 1]) (n d : Nat) :
    delaysBeforeWrites str (periodic block n) d = List.range' (d + 1) n := by
  induction n generalizing d with
  | zero => simp [periodic, delaysBeforeWrites]
  | succ k ih =>
    simp only [periodic, delaysBeforeWrites_append, h1, h2, ih, List.range'_succ,
      List.singleton_append]

/-- C7: after `n` loop iterations the calls of Task 1 are the guarded write of its banner
followed by `n` times a strict 1000 ms delay and the guarded write of "1"; those of Task
2 the same with its banner, 2000 ms and "2"; and those of the start task are its entry
calls followed by `n` times a strict 100 ms delay and the guarded write of ".". The
delay comes first in every iteration: the k-th "1", "2" or "." is written when its task
has requested exactly k delays. -/
theorem periodic_output (env : Env) (n : Nat) :
    (AppTask1 env n Machine.start).2.trace
        = guardedWrite "Task #1 Started\r\n"
            ++ periodic (strictDelay 0 0 1 0 :: guardedWrite "1") n
      ∧ (AppTask2 env n Machine.start).trace
        = guardedWrite "Task #2 Started\r\n"
            ++ periodic (strictDelay 0 0 2 0 :: guardedWrite "2") n
      ∧ (AppTaskStart env n Machine.start).trace
        = startTaskEntryCalls ++ periodic (strictDelay 0 0 0 100 :: guardedWrite ".") n
      ∧ delayMillis (strictDelay 0 0 1 0) = some 1000
      ∧ delayMillis (strictDelay 0 0 2 0) = some 2000
      ∧ delayMillis (strictDelay 0 0 0 100) = some 100
      ∧ delaysBeforeWrites "1" (AppTask1 env n Machine.start).2.trace 0 = List.range' 1 n
      ∧ delaysBeforeWrites "2" (AppTask2 env n Machine.start).trace 0 = List.range' 1 n
      ∧ delaysBeforeWrites "." (AppTaskStart env n Machine.start).trace 0
        = List.range' 1 n := by
  have e1 := AppTask1_trace env n Machine.start
  have e2 := AppTask2_trace env n Machine.start
  have e3 := AppTaskStart_trace env n Machine.start
  simp only [Machine.start, List.nil_append] at e1 e2 e3
  simp only [Machine.start]
  refine ⟨e1, e2, e3, by decide, by decide, by decide, ?_, ?_, ?_⟩
  · rw [e1, delaysBeforeWrites_append,
      delaysBeforeWrites_periodic _ _ (by decide) (fun d => by
        simp [delaysBeforeWrites, strictDelay, guardedWrite, pendPrintMutex, postPrintMutex])]
    have h0 : delaysBeforeWrites "1" (guardedWrite "Task #1 Started\r\n") 0 = [] := by decide
    have hc : ((guardedWrite "Task #1 Started\r\n").filterMap delayMillis).length = 0 := by
      decide
    rw [h0, hc]
    rfl
  · rw [e2, delaysBeforeWrites_append,
      delaysBeforeWrites_periodic _ _ (by decide) (fun d => by
        simp [delaysBeforeWrites, strictDelay, guardedWrite, pendPrintMutex, postPrintMutex])]
    have h0 : delaysBeforeWrites "2" (guardedWrite "Task #2 Started\r\n") 0 = [] := by decide
    have hc : ((guardedWrite "Task #2 Started\r\n").filterMap delayMillis).length = 0 := by
      decide
    rw [h0, hc]
    rfl
  · rw [e3, delaysBeforeWrites_append,
      delaysBeforeWrites_periodic _ _ (by decide) (fun d => by
        simp [delaysBeforeWrites, strictDelay, guardedWrite, pendPrintMutex, postPrintMutex])]
    have h0 : delaysBeforeWrites "." startTaskEntryCalls 0 = [] := by decide
    have hc : (startTaskEntryCalls.filterMap delayMillis).length = 0 := by decide
    rw [h0, hc]
    rfl

/-! ## Statuses and button values -/

theorem AppPrint_errs (env : Env) (str : String) (m : Machine) :
    (AppPrint env str m).errs
      = m.errs ++ [env.reply m.errs.length, env.reply (m.errs.length + 1)] := by
  simp [AppPrint, OSMutexPend, OSMutexPost, UCOS_Print, kernelCall]

theorem AppTaskCreate_errs (env : Env) (m : Machine) :
    (AppTaskCreate env m).errs
      = m.errs ++ [env.reply m.errs.length, env.reply (m.errs.length + 1)] := by
  simp [AppTaskCreate, OSTaskCreate, kernelCall]

theorem MainTask_trace_env (e1 e2 : Env) (n : Nat) :
    (MainTask e1 n).m.trace = (MainTask e2 n).m.trace := by
  rcases Nat.lt_or_ge n 4 with h | h
  · interval_cases n <;>
      simp [MainTask, MainTask_step, MainCfg.entry, OSInit, OSTaskCreate, kernelCall]
  · obtain ⟨k, rfl⟩ := Nat.exists_eq_add_of_le h
    rw [MainTask_after_boot, MainTask_after_boot, MainTask_boot_trace, MainTask_boot_trace]

theorem AppTask1_body_machine (e1 e2 : Env) (hr : e1.reply = e2.reply)
    (s1 s2 : Task1Locals × Machine) (h : s1.2 = s2.2) :
    (AppTask1_body e1 s1).2 = (AppTask1_body e2 s2).2 := by
  simp [AppTask1_body, AppPrint, OSMutexPend, OSMutexPost, UCOS_Print, OSTimeDlyHMSM,
    kernelCall, readButtons, h, hr]

theorem AppTask1_machine (e1 e2 : Env) (hr : e1.reply = e2.reply) (n : Nat) (m : Machine) :
    (AppTask1 e1 n m).2 = (AppTask1 e2 n m).2 := by
  induction n with
  | zero =>
    simp [AppTask1, AppTask1_entry, AppPrint, OSMutexPend, OSMutexPost, UCOS_Print,
      kernelCall, hr]
  | succ k ih =>
    have h1 : AppTask1 e1 (k + 1) m = AppTask1_body e1 (AppTask1 e1 k m) := by
      simp only [AppTask1, Function.iterate_succ_apply']
    have h2 : AppTask1 e2 (k + 1) m = AppTask1_body e2 (AppTask1 e2 k m) := by
      simp only [AppTask1, Function.iterate_succ_apply']
    rw [h1, h2]
    exact AppTask1_body_machine e1 e2 hr _ _ ih

theorem AppTask1_reads (env : Env) (n : Nat) (m : Machine) :
    (AppTask1 env n m).2.reads = m.reads + n := by
  induction n with
  | zero =>
    simp [AppTask1, AppTask1_entry, AppPrint, OSMutexPend, OSMutexPost, UCOS_Print, kernelCall]
  | succ k ih =>
    have h1 : AppTask1 env (k + 1) m = AppTask1_body env (AppTask1 env k m) := by
      simp only [AppTask1, Function.iterate_succ_apply']
    rw [h1]
    simp [AppTask1_body, AppPrint, OSMutexPend, OSMutexPost, UCOS_Print, OSTimeDlyHMSM,
      kernelCall, readButtons, ih, Nat.add_assoc]

theorem AppTask1_old_data (env : Env) (n : Nat) (m : Machine) :
    (AppTask1 env n m).1.old_dataR = 0 ∧ (AppTask1 env n m).1.old_dataL = 0 := by
  induction n with
  | zero => simp [AppTask1, AppTask1_entry]
  | succ k ih =>
    have h1 : AppTask1 env (k + 1) m = AppTask1_body env (AppTask1 env k m) := by
      simp only [AppTask1, Function.iterate_succ_apply']
    rw [h1]
    simpa [AppTask1_body] using ih

theorem decode_right (v : Nat) : 0x00000001 &&& v = v % 2 := by
  rw [Nat.land_comm]
  exact Nat.and_one_is_mod v

theorem decode_left (v : Nat) : (0x00000002 &&& v) >>> 1 = v / 2 % 2 := by
  have h : v / 2 % 2 = 1 &&& (v >>> 1) := by
    rw [Nat.one_and_eq_mod_two, Nat.shiftRight_eq_div_pow, Nat.pow_one]
  rw [h]
  apply Nat.eq_of_testBit_eq
  intro i
  have h2 : Nat.testBit 2 (1 + i) = decide (1 = 1 + i) := @Nat.testBit_two_pow 1 (1 + i)
  have h1 : Nat.testBit 1 i = decide (0 = i) := @Nat.testBit_two_pow 0 i
  simp only [Nat.testBit_shiftRight, Nat.testBit_and, h2, h1]
  cases i <;> simp

/-- C10: the button register does not influence Task 1: for any two sequences of register
values, Task 1 issues the same calls, is handed the same statuses and performs the same
number of reads after every number of iterations. Each iteration does decode the value
read, `new_dataR = but & 1` (bit 0) and `new_dataL = (but & 2) >> 1` (bit 1), into
locals that nothing reads; `old_dataR` and `old_dataL` stay 0. -/
theorem buttons_do_not_influence_Task1 (env : Env) (b1 b2 : Nat → Nat) (n : Nat) (m : Machine) :
    (AppTask1 { env with button := b1 } n m).2 = (AppTask1 { env with button := b2 } n m).2
      ∧ (AppTask1 { env with button := b1 } n m).2.trace
        = m.trace ++ guardedWrite "Task #1 Started\r\n"
            ++ periodic (strictDelay 0 0 1 0 :: guardedWrite "1") n
      ∧ (AppTask1 { env with button := b1 } (n + 1) m).1
        = { but := some (b1 (m.reads + n) % 2 ^ 32)
            new_dataR := 0x00000001 &&& (b1 (m.reads + n) % 2 ^ 32)
            old_dataR := 0
            new_dataL := (0x00000002 &&& (b1 (m.reads + n) % 2 ^ 32)) >>> 1
            old_dataL := 0 }
      ∧ 0x00000001 &&& (b1 (m.reads + n) % 2 ^ 32) = b1 (m.reads + n) % 2
      ∧ (0x00000002 &&& (b1 (m.reads + n) % 2 ^ 32)) >>> 1 = b1 (m.reads + n) / 2 % 2 := by
  refine ⟨AppTask1_machine { env with button := b1 } { env with button := b2 } rfl n m,
    AppTask1_trace _ n m, ?_, ?_, ?_⟩
  · have h1 : AppTask1 { env with button := b1 } (n + 1) m
        = AppTask1_body { env with button := b1 } (AppTask1 { env with button := b1 } n m) := by
      simp only [AppTask1, Function.iterate_succ_apply']
    have hr := AppTask1_reads { env with button := b1 } n m
    have ho := AppTask1_old_data { env with button := b1 } n m
    rw [h1]
    simp only [AppTask1_body, readButtons, hr]
    rw [Task1Locals.mk.injEq]
    exact ⟨rfl, rfl, ho.1, rfl, ho.2⟩
  · rw [decode_right]
    omega
  · rw [decode_left]
    omega

theorem AppTaskStart_entry_errs (env : Env) (m : Machine) :
    (AppTaskStart_entry env m).errs
      = m.errs ++ [env.reply m.errs.length, env.reply (m.errs.length + 1),
          env.reply (m.errs.length + 2)] := by
  simp [AppTaskStart_entry, AppTaskCreate, OSTaskCreate, OSMutexCreate, UCOS_Print, kernelCall]

theorem AppTaskStart_body_errs (env : Env) (m : Machine) :
    (AppTaskStart_body env m).errs
      = m.errs ++ [env.reply m.errs.length, env.reply (m.errs.length + 1),
          env.reply (m.errs.length + 2)] := by
  simp [AppTaskStart_body, AppPrint, OSMutexPend, OSMutexPost, OSTimeDlyHMSM, UCOS_Print,
    kernelCall]

theorem AppTask1_body_errs (env : Env) (s : Task1Locals × Machine) :
    (AppTask1_body env s).2.errs
      = s.2.errs ++ [env.reply s.2.errs.length, env.reply (s.2.errs.length + 1),
          env.reply (s.2.errs.length + 2)] := by
  simp [AppTask1_body, AppPrint, OSMutexPend, OSMutexPost, OSTimeDlyHMSM, UCOS_Print,
    kernelCall, readButtons]

theorem AppTask2_body_errs (env : Env) (m : Machine) :
    (AppTask2_body env m).errs
      = m.errs ++ [env.reply m.errs.length, env.reply (m.errs.length + 1),
          env.reply (m.errs.length + 2)] := by
  simp [AppTask2_body, AppPrint, OSMutexPend, OSMutexPost, OSTimeDlyHMSM, UCOS_Print,
    kernelCall]

theorem replies_three_more (reply : Nat → OS_ERR) (base k : Nat) :
    (List.range (k + 3)).map (fun i => reply (base + i))
      = (List.range k).map (fun i => reply (base + i))
          ++ [reply (base + k), reply (base + k + 1), reply (base + k + 2)] := by
  simp [List.range_succ, Nat.add_assoc]

theorem AppTaskStart_errs (env : Env) (n : Nat) (m : Machine) :
    (AppTaskStart env n m).errs
      = m.errs ++ (List.range (3 + 3 * n)).map (fun i => env.reply (m.errs.length + i)) := by
  induction n with
  | zero =>
    simp [AppTaskStart, AppTaskStart_entry_errs, List.range_succ]
  | succ k ih =>
    have hstep : AppTaskStart env (k + 1) m = AppTaskStart_body env (AppTaskStart env k m) := by
      simp only [AppTaskStart, Function.iterate_succ_apply']
    have harith : 3 + 3 * (k + 1) = (3 + 3 * k) + 3 := by omega
    rw [hstep, AppTaskStart_body_errs, ih, harith, replies_three_more]
    simp [Nat.add_assoc]

theorem AppTask1_errs (env : Env) (n : Nat) (m : Machine) :
    (AppTask1 env n m).2.errs
      = m.errs ++ (List.range (2 + 3 * n)).map (fun i => env.reply (m.errs.length + i)) := by
  induction n with
  | zero =>
    simp [AppTask1, AppTask1_entry, AppPrint_errs, List.range_succ]
  | succ k ih =>
    have hstep : AppTask1 env (k + 1) m = AppTask1_body env (AppTask1 env k m) := by
      simp only [AppTask1, Function.iterate_succ_apply']
    have harith : 2 + 3 * (k + 1) = (2 + 3 * k) + 3 := by omega
    rw [hstep, AppTask1_body_errs, ih, harith, replies_three_more]
    simp [Nat.add_assoc]

theorem AppTask2_errs (env : Env) (n : Nat) (m : Machine) :
    (AppTask2 env n m).errs
      = m.errs ++ (List.range (2 + 3 * n)).map (fun i => env.reply (m.errs.length + i)) := by
  induction n with
  | zero =>
    simp [AppTask2, AppTask2_entry, AppPrint_errs, List.range_succ]
  | succ k ih =>
    have hstep : AppTask2 env (k + 1) m = AppTask2_body env (AppTask2 env k m) := by
      simp only [AppTask2, Function.iterate_succ_apply']
    have harith : 2 + 3 * (k + 1) = (2 + 3 * k) + 3 := by omega
    rw [hstep, AppTask2_body_errs, ih, harith, replies_three_more]
    simp [Nat.add_assoc]

/-- C3 (as the code has it): every status the kernel reports is stored into the `err` of
the caller, in program order, and no caller reads it: the calls issued by `MainTask`,
`AppTaskCreate`, `AppTaskStart`, `AppTask1`, `AppTask2` and `AppPrint` are the same
under any two environments, whatever statuses they report. The stored statuses are
exactly the kernel's answers, one per call: for `OSInit`, `OSTaskCreate` and a returning
`OSStart` in `MainTask`; for both `OSTaskCreate` and `OSMutexCreate` at the entry of the
start task; for `OSTimeDlyHMSM`, `OSMutexPend` and `OSMutexPost` in every loop
iteration of the three tasks; and for the pend and post of every `AppPrint`. -/
theorem statuses_stored_never_inspected (e1 e2 : Env) (n : Nat) (m : Machine) (str : String) :
    (MainTask e1 n).m.trace = (MainTask e2 n).m.trace
      ∧ (AppTaskCreate e1 m).trace = (AppTaskCreate e2 m).trace
      ∧ (AppTaskStart e1 n m).trace = (AppTaskStart e2 n m).trace
      ∧ (AppTask1 e1 n m).2.trace = (AppTask1 e2 n m).2.trace
      ∧ (AppTask2 e1 n m).trace = (AppTask2 e2 n m).trace
      ∧ (AppPrint e1 str m).trace = (AppPrint e2 str m).trace
      ∧ (MainTask e1 3).m.errs = [e1.reply 0, e1.reply 1]
      ∧ (AppTaskCreate e1 m).errs
        = m.errs ++ [e1.reply m.errs.length, e1.reply (m.errs.length + 1)]
      ∧ (AppPrint e1 str m).errs
        = m.errs ++ [e1.reply m.errs.length, e1.reply (m.errs.length + 1)]
      ∧ (MainTask { e1 with startReturns := true } (4 + n)).m.errs
        = [e1.reply 0, e1.reply 1, e1.reply 2]
      ∧ (AppTaskStart_entry e1 m).errs
        = m.errs ++ [e1.reply m.errs.length, e1.reply (m.errs.length + 1),
            e1.reply (m.errs.length + 2)]
      ∧ (AppTaskStart_body e1 m).errs
        = m.errs ++ [e1.reply m.errs.length, e1.reply (m.errs.length + 1),
            e1.reply (m.errs.length + 2)]
      ∧ (AppTask1_body e1 (Task1Locals.mk none 0 0 0 0, m)).2.errs
        = m.errs ++ [e1.reply m.errs.length, e1.reply (m.errs.length + 1),
            e1.reply (m.errs.length + 2)]
      ∧ (AppTask2_body e1 m).errs
        = m.errs ++ [e1.reply m.errs.length, e1.reply (m.errs.length + 1),
            e1.reply (m.errs.length + 2)]
      ∧ (AppTaskStart e1 n m).errs
        = m.errs ++ (List.range (3 + 3 * n)).map (fun i => e1.reply (m.errs.length + i))
      ∧ (AppTask1 e1 n m).2.errs
        = m.errs ++ (List.range (2 + 3 * n)).map (fun i => e1.reply (m.errs.length + i))
      ∧ (AppTask2 e1 n m).errs
        = m.errs ++ (List.range (2 + 3 * n)).map (fun i => e1.reply (m.errs.length + i))
      ∧ ((AppTaskStart e1 n m).trace.filter (fun c => !isWrite c)).length
          + m.errs.length
        = (AppTaskStart e1 n m).errs.length
          + (m.trace.filter (fun c => !isWrite c)).length := by
  refine ⟨MainTask_trace_env e1 e2 n, ?_, ?_, ?_, ?_, ?_, ?_, AppTaskCreate_errs e1 m,
    AppPrint_errs e1 str m, ?_, AppTaskStart_entry_errs e1 m, AppTaskStart_body_errs e1 m,
    AppTask1_body_errs e1 _, AppTask2_body_errs e1 m, AppTaskStart_errs e1 n m,
    AppTask1_errs e1 n m, AppTask2_errs e1 n m, ?_⟩
  · rw [AppTaskCreate_trace, AppTaskCreate_trace]
  · rw [AppTaskStart_trace, AppTaskStart_trace]
  · rw [AppTask1_trace, AppTask1_trace]
  · rw [AppTask2_trace, AppTask2_trace]
  · rw [AppPrint_trace, AppPrint_trace]
  · simp [MainTask, MainTask_step, MainCfg.entry, OSInit, OSTaskCreate, kernelCall,
      AppPrintWelcomeMsg, UCOS_Print, Machine.start]
  · rw [MainTask_after_boot]
    simp [MainTask, MainTask_step, MainCfg.entry, OSInit, OSTaskCreate, OSStart, kernelCall,
      AppPrintWelcomeMsg, UCOS_Print, Machine.start]
  · rw [AppTaskStart_errs, AppTaskStart_trace]
    have hper : ∀ k, ((periodic (strictDelay 0 0 0 100 :: guardedWrite ".") k).filter
        (fun c => !isWrite c)).length = 3 * k := by
      intro k
      induction k with
      | zero => rfl
      | succ j ih =>
        simp only [periodic, List.filter_append, List.length_append, ih]
        have hb : ((strictDelay 0 0 0 100 :: guardedWrite ".").filter
            (fun c => !isWrite c)).length = 3 := by decide
        rw [hb]
        omega
    have he : (startTaskEntryCalls.filter (fun c => !isWrite c)).length = 3 := by decide
    simp only [List.filter_append, List.length_append, List.length_map, List.length_range,
      hper, he]
    omega

/-- C3 (as stated) fails: when `OSTaskCreate` reports `ResourceExhausted`, in `MainTask`
(its second kernel call) and in `AppTaskCreate` (its first), the failure is stored and
the caller goes on exactly as on success: `MainTask` still calls `OSStart`,
`AppTaskCreate` still creates Task 2. -/
theorem failed_create_goes_unreported :
    (MainTask (Env.failingAt 1) 3).m.errs = [OS_ERR.OS_ERR_NONE, OS_ERR.ResourceExhausted]
      ∧ (MainTask Env.quiet 3).m.errs = [OS_ERR.OS_ERR_NONE, OS_ERR.OS_ERR_NONE]
      ∧ ¬ ((MainTask (Env.failingAt 1) 4).m.trace ≠ (MainTask Env.quiet 4).m.trace)
      ∧ (MainTask (Env.failingAt 1) 4).m.trace.getLast? = some Call.OSStart
      ∧ (AppTaskCreate (Env.failingAt 0) Machine.start).errs
        = [OS_ERR.ResourceExhausted, OS_ERR.OS_ERR_NONE]
      ∧ ¬ ((AppTaskCreate (Env.failingAt 0) Machine.start).trace
            ≠ (AppTaskCreate Env.quiet Machine.start).trace)
      ∧ createdTasks (AppTaskCreate (Env.failingAt 0) Machine.start).trace
        = [(OS_TASK_PTR.AppTask1, 2), (OS_TASK_PTR.AppTask2, 3)] := by
  refine ⟨by decide, by decide, by decide, by decide, by decide, by decide, by decide⟩

/-! ## Console writes and the mutex -/

theorem writesGuardedAfter_iteration (h mi sec ms : Nat) (str : String) (prev : Option Call)
    (rest : List Call) :
    writesGuardedAfter prev ((strictDelay h mi sec ms :: guardedWrite str) ++ rest)
      = writesGuardedAfter (some postPrintMutex) rest := by
  simp [writesGuardedAfter, strictDelay, guardedWrite, pendPrintMutex, postPrintMutex, isWrite,
    isPendOnPrintMutex, isPostOnPrintMutex]

theorem writesGuardedAfter_periodic (h mi sec ms : Nat) (str : String) (n : Nat)
    (prev : Option Call) :
    writesGuardedAfter prev (periodic (strictDelay h mi sec ms :: guardedWrite str) n)
      = true := by
  induction n generalizing prev with
  | zero => rfl
  | succ k ih =>
    show writesGuardedAfter prev
      ((strictDelay h mi sec ms :: guardedWrite str)
        ++ periodic (strictDelay h mi sec ms :: guardedWrite str) k) = true
    rw [writesGuardedAfter_iteration]
    exact ih _

/-- C1 (the code at the failing input): the first call of `AppTaskStart` is the direct
console write of "Task Start Created", with no pend before it and `OSTaskCreate`, not a
post, after it, so the writes of the start task are not all guarded. Every later write of
the start task, and every write of Task 1 and of Task 2, is bracketed by pend and post on
the print mutex. -/
theorem AppTaskStart_first_write_unguarded (env : Env) (n : Nat) :
    (AppTaskStart env n Machine.start).trace.head?
        = some (Call.UCOS_Print "Task Start Created\r\n")
      ∧ ((AppTaskStart env n Machine.start).trace.get? 1).map isPostOnPrintMutex = some false
      ∧ writesGuarded (AppTaskStart env n Machine.start).trace = false
      ∧ writesGuarded (AppTaskStart env n Machine.start).trace.tail = true
      ∧ writesGuarded (AppTask1 env n Machine.start).2.trace = true
      ∧ writesGuarded (AppTask2 env n Machine.start).trace = true := by
  have e1 := AppTask1_trace env n Machine.start
  have e2 := AppTask2_trace env n Machine.start
  have e3 := AppTaskStart_trace env n Machine.start
  simp only [Machine.start, List.nil_append] at e1 e2 e3
  simp only [Machine.start]
  rw [e1, e2, e3]
  refine ⟨by simp [startTaskEntryCalls], by simp [startTaskEntryCalls, isPostOnPrintMutex],
    ?_, ?_, ?_, ?_⟩
  · simp [writesGuarded, writesGuardedAfter, startTaskEntryCalls, isWrite]
  · simp [writesGuarded, writesGuardedAfter, startTaskEntryCalls, isWrite,
      writesGuardedAfter_periodic]
  · simp [writesGuarded, writesGuardedAfter, guardedWrite, pendPrintMutex, postPrintMutex,
      isWrite, isPendOnPrintMutex, isPostOnPrintMutex]
    exact writesGuardedAfter_periodic 0 0 1 0 "1" n _
  · simp [writesGuarded, writesGuardedAfter, guardedWrite, pendPrintMutex, postPrintMutex,
      isWrite, isPendOnPrintMutex, isPostOnPrintMutex]
    exact writesGuardedAfter_periodic 0 0 2 0 "2" n _

/-! ## The system after the start of multitasking -/

theorem afterCalls_step (k : Nat) (e : Event) (hk : k ≤ 3) :
    (Sys.afterCalls k).step e = Sys.afterCalls k
      ∨ (Sys.afterCalls k).step e = Sys.afterCalls (k + 1) ∧ k + 1 ≤ 3 := by
  interval_cases k
  · cases e with
    | run => exact Or.inr ⟨rfl, by decide⟩
    | wake t => cases t <;> exact Or.inl rfl
  · cases e with
    | run => exact Or.inr ⟨rfl, by decide⟩
    | wake t => cases t <;> exact Or.inl rfl
  · cases e with
    | run => exact Or.inr ⟨rfl, by decide⟩
    | wake t => cases t <;> exact Or.inl rfl
  · cases e with
    | run => exact Or.inl rfl
    | wake t => cases t <;> exact Or.inl rfl

theorem run_from_afterCalls (es : List Event) :
    ∀ k, k ≤ 3 → ∃ j, j ≤ 3 ∧ (Sys.afterCalls k).run es = Sys.afterCalls j := by
  induction es with
  | nil => exact fun k hk => ⟨k, hk, rfl⟩
  | cons e rest ih =>
    intro k hk
    have hrun : (Sys.afterCalls k).run (e :: rest) = ((Sys.afterCalls k).step e).run rest := rfl
    rcases afterCalls_step k e hk with h | ⟨h, hk1⟩
    · rw [hrun, h]
      exact ih k hk
    · rw [hrun, h]
      exact ih (k + 1) hk1

theorem afterCalls_log (k : Nat) (hk : k ≤ 3) :
    (Sys.afterCalls k).log = firstThreeCalls.take k := by
  interval_cases k <;> decide

/-- C2 (the code at the failing input): under the scheduling rule of the specification
the first three calls after the start of multitasking are the banner write and the
creation of Task 1 by the start task, then, Task 1 having the better priority, the pend
of Task 1 on the print mutex: the mutex does not exist yet, `OSMutexCreate` being the
fourth call of the start task, after both task creations. Every execution, whatever
delays expire, begins with these calls in this order. -/
theorem mutex_pended_before_created :
    (Sys.boot.run [Event.run, Event.run, Event.run]).log = firstThreeCalls
      ∧ (Sys.boot.run [Event.run, Event.run, Event.run]).mutex = none
      ∧ (Sys.boot.run [Event.run, Event.run, Event.run]).fault
        = some (Fault.mutexUsedBeforeCreate OS_TASK_PTR.AppTask1 pendPrintMutex)
      ∧ (Sys.boot.run [Event.run, Event.run]).running.map (fun x => (x.entry, x.prio, x.pc))
        = some (OS_TASK_PTR.AppTask1, 2, 0)
      ∧ (Sys.boot.run [Event.run, Event.run, Event.run]).tasks.map (fun x => (x.entry, x.pc))
        = [(OS_TASK_PTR.AppTaskStart, 2), (OS_TASK_PTR.AppTask1, 1)]
      ∧ taskCode OS_TASK_PTR.AppTask1 0 = some pendPrintMutex
      ∧ taskCode OS_TASK_PTR.AppTaskStart 3
        = some (Call.OSMutexCreate OS_MUTEX.AppMutexPrint "My App. Mutex")
      ∧ (firstThreeCalls.map (fun x => x.2)).all
          (fun c => match c with
            | Call.OSMutexCreate _ _ => false
            | _ => true) = true
      ∧ ∀ es : List Event, ∃ j, j ≤ 3 ∧ (Sys.boot.run es).log = firstThreeCalls.take j := by
  refine ⟨by decide, by decide, by decide, by decide, by decide, by decide, by decide,
    by decide, ?_⟩
  intro es
  obtain ⟨j, hj, h⟩ := run_from_afterCalls es 0 (by decide)
  refine ⟨j, hj, ?_⟩
  have h0 : Sys.afterCalls 0 = Sys.boot := rfl
  rw [← h0, h]
  exact afterCalls_log j hj

/-! ## The console stream -/

theorem banner_not_concat (rest : String) :
    ¬ IsConcatOfAppPrintArgs ("Task Start Created\r\n" ++ rest) := by
  rintro ⟨parts, hmem, hcat⟩
  have hdata := congrArg String.data hcat
  cases parts with
  | nil =>
    simp [concatAll, String.data_append] at hdata
  | cons p ps =>
    have hp := hmem p (List.mem_cons_self p ps)
    simp only [AppPrint_arguments, List.mem_cons, List.mem_singleton, List.not_mem_nil,
      or_false] at hp
    rcases hp with rfl | rfl | rfl | rfl | rfl <;>
      simp [concatAll, String.data_append] at hdata

/-- C5 (the code at the failing input): the first call after the start of multitasking is
the direct write of "Task Start Created" by the start task, made while no mutex exists;
the console stream after the start of multitasking begins with it in every execution that
writes at all, and no stream beginning with it is a concatenation of `AppPrint`
argument strings. -/
theorem console_stream_begins_with_direct_write :
    (Sys.boot.step Event.run).log
        = [(OS_TASK_PTR.AppTaskStart, Call.UCOS_Print "Task Start Created\r\n")]
      ∧ (Sys.boot.step Event.run).mutex = none
      ∧ (Sys.boot.step Event.run).console = Sys.boot.console ++ "Task Start Created\r\n"
      ∧ (∀ rest : String, ¬ IsConcatOfAppPrintArgs ("Task Start Created\r\n" ++ rest))
      ∧ ∀ es : List Event,
          (Sys.boot.run es).console = Sys.boot.console
            ∨ (Sys.boot.run es).console = Sys.boot.console ++ "Task Start Created\r\n" := by
  refine ⟨by decide, by decide, rfl, banner_not_concat, ?_⟩
  intro es
  obtain ⟨j, hj, h⟩ := run_from_afterCalls es 0 (by decide)
  have h0 : Sys.afterCalls 0 = Sys.boot := rfl
  rw [← h0, h]
  interval_cases j
  · exact Or.inl rfl
  · exact Or.inr rfl
  · exact Or.inr rfl
  · exact Or.inr rfl

/-! ## AppPrint over the mutex of the specification -/

theorem pend_on_free_mutex (s : Sys) (t : OS_TASK_PTR) (ws : List OS_TASK_PTR)
    (hm : s.mutex = some { owner := none, waiters := ws }) :
    (s.exec t pendPrintMutex).1 = OS_ERR.OS_ERR_NONE
      ∧ (s.exec t pendPrintMutex).2 = { s with mutex := some { owner := some t, waiters := ws } } := by
  simp [Sys.exec, pendPrintMutex, hm, Mutex.acquire]

theorem pend_on_held_mutex (s : Sys) (t o : OS_TASK_PTR) (ws : List OS_TASK_PTR)
    (hm : s.mutex = some { owner := some o, waiters := ws }) :
    (s.exec t pendPrintMutex).2
      = { s with mutex := some { owner := some o, waiters := insertByPrio s.prioOf t ws }
          }.setState t TaskState.BlockedOnMutex := by
  simp [Sys.exec, pendPrintMutex, hm, Mutex.acquire]

/-- C4: `AppPrint(str)` issues exactly three calls, in this order: the blocking pend on
the print mutex with timeout 0, the console write of `str`, the post on the print mutex.
In the mutex model of the specification, from any state in which the pend has returned,
that is, the caller owns the mutex and is not in its wait set, the post succeeds (it is
not `NotOwner`), afterwards the caller does not own the mutex, and the console holds its
previous content followed by `str`. -/
theorem AppPrint_pend_write_post (env : Env) (str : String) (m : Machine) (s : Sys)
    (t : OS_TASK_PTR) (mx : Mutex) (hm : s.mutex = some mx) (hown : mx.owner = some t)
    (hw : t ∉ mx.waiters) :
    (AppPrint env str m).trace
        = m.trace ++
          [ Call.OSMutexPend OS_MUTEX.AppMutexPrint 0 OS_OPT.OS_OPT_PEND_BLOCKING,
            Call.UCOS_Print str,
            Call.OSMutexPost OS_MUTEX.AppMutexPrint OS_OPT.OS_OPT_POST_NONE ]
      ∧ (s.afterWriteAndPost t str).1 = OS_ERR.OS_ERR_NONE
      ∧ (s.afterWriteAndPost t str).1 ≠ OS_ERR.NotOwner
      ∧ (∃ mx1, (s.afterWriteAndPost t str).2.mutex = some mx1 ∧ mx1.owner ≠ some t)
      ∧ (s.afterWriteAndPost t str).2.console = s.console ++ str
      ∧ (s.afterWriteAndPost t str).2.fault = s.fault := by
  refine ⟨by rw [AppPrint_trace]; rfl, ?_⟩
  obtain ⟨o, ws⟩ := mx
  simp only at hown hw
  subst hown
  cases ws with
  | nil =>
    simp [Sys.afterWriteAndPost, Sys.exec, postPrintMutex, hm, Mutex.release]
  | cons w rest =>
    have hne : w ≠ t := by
      intro h
      exact hw (h ▸ List.mem_cons_self w rest)
    simp [Sys.afterWriteAndPost, Sys.exec, postPrintMutex, hm, Mutex.release, Sys.setState, hne]

/-- Witness for C4: Task 1 creates the mutex, pends on it while it is free and so owns
it; its write of "1" and its post then succeed, leave the mutex to nobody and extend the
console by "1". -/
theorem AppPrint_pend_write_post_witness :
    (Sys.task1Owns.mutex = some { owner := some OS_TASK_PTR.AppTask1, waiters := [] }
        ∧ ({ owner := some OS_TASK_PTR.AppTask1, waiters := [] } : Mutex).owner
          = some OS_TASK_PTR.AppTask1
        ∧ OS_TASK_PTR.AppTask1
          ∉ ({ owner := some OS_TASK_PTR.AppTask1, waiters := [] } : Mutex).waiters)
      ∧ ((AppPrint Env.quiet "1" Machine.start).trace
          = Machine.start.trace ++
            [ Call.OSMutexPend OS_MUTEX.AppMutexPrint 0 OS_OPT.OS_OPT_PEND_BLOCKING,
              Call.UCOS_Print "1",
              Call.OSMutexPost OS_MUTEX.AppMutexPrint OS_OPT.OS_OPT_POST_NONE ]
        ∧ (Sys.task1Owns.afterWriteAndPost OS_TASK_PTR.AppTask1 "1").1 = OS_ERR.OS_ERR_NONE
        ∧ (Sys.task1Owns.afterWriteAndPost OS_TASK_PTR.AppTask1 "1").1 ≠ OS_ERR.NotOwner
        ∧ (∃ mx1, (Sys.task1Owns.afterWriteAndPost OS_TASK_PTR.AppTask1 "1").2.mutex = some mx1
            ∧ mx1.owner ≠ some OS_TASK_PTR.AppTask1)
        ∧ (Sys.task1Owns.afterWriteAndPost OS_TASK_PTR.AppTask1 "1").2.console
          = Sys.task1Owns.console ++ "1"
        ∧ (Sys.task1Owns.afterWriteAndPost OS_TASK_PTR.AppTask1 "1").2.fault
          = Sys.task1Owns.fault) :=
  ⟨⟨rfl, rfl, List.not_mem_nil _⟩,
    AppPrint_pend_write_post Env.quiet "1" Machine.start Sys.task1Owns OS_TASK_PTR.AppTask1
      { owner := some OS_TASK_PTR.AppTask1, waiters := [] } rfl rfl (List.not_mem_nil _)⟩

/-- The hand-off scenario of section 8 of the specification on this model: Task 2 holds
the mutex, the start task (priority 8) blocks on it first and Task 1 (priority 2) second;
when Task 2 posts, Task 1 owns the mutex and is ready, the start task still waits. -/
theorem mutex_handoff_scenario :
    (Sys.contended.afterWriteAndPost OS_TASK_PTR.AppTask2 "2").1 = OS_ERR.OS_ERR_NONE
      ∧ Sys.contended.mutex
        = some { owner := some OS_TASK_PTR.AppTask2,
                 waiters := [OS_TASK_PTR.AppTask1, OS_TASK_PTR.AppTaskStart] }
      ∧ (Sys.contended.afterWriteAndPost OS_TASK_PTR.AppTask2 "2").2.mutex
        = some { owner := some OS_TASK_PTR.AppTask1, waiters := [OS_TASK_PTR.AppTaskStart] }
      ∧ (Sys.contended.afterWriteAndPost OS_TASK_PTR.AppTask2 "2").2.stateOf
          OS_TASK_PTR.AppTask1 = TaskState.Ready
      ∧ (Sys.contended.afterWriteAndPost OS_TASK_PTR.AppTask2 "2").2.stateOf
          OS_TASK_PTR.AppTaskStart = TaskState.BlockedOnMutex
      ∧ (Sys.contended.exec OS_TASK_PTR.AppTaskStart postPrintMutex).1 = OS_ERR.NotOwner
      ∧ (Sys.contended.exec OS_TASK_PTR.AppTaskStart postPrintMutex).2 = Sys.contended := by
  refine ⟨by decide, by decide, by decide, by decide, by decide, by decide, rfl⟩

end AppRTOS
